import Mathlib

/-!
# Verification of the role-mapping CSV converter

Shallow embedding of `convert_excel_to_csv` (src/APP1UserGroupexportCSV_V1.py,
lines 197-261) and of the inlined "v2" copy of the same conversion loop
(lines 946-990), together with proofs of the specified properties.

A spreadsheet cell is loosely typed in the source (pandas): it is either a
Python string or some non-string value (e.g. the NaN a blank cell reads as).
`Cell.nonString` models every non-string value uniformly: the only operations
the converter applies to a cell are the `in` substring test (which raises
`TypeError` on any non-string) and serialization by `to_csv` (which renders
NaN/missing as the empty field).
-/

/-- A loosely-typed spreadsheet cell value: a Python string, or any
non-string value (NaN, a number, ...). -/
inductive Cell where
  | str (s : String)
  | nonString
deriving DecidableEq

/-- One input row. `none` models a row whose Series index lacks the
corresponding column label, so `row.get(label, '')` returns the default. -/
structure InputRow where
  email : Option Cell
  siteRole : Option Cell
deriving DecidableEq

/-- Model of `row.get(label, '')`: the cell when the label is present, else `''`. -/
def rowGet : Option Cell → Cell
  | some c => c
  | none => Cell.str ""

/-- The exception the Python runtime raises when `in` is applied to a
non-iterable right operand. -/
inductive PyErr where
  | typeError
deriving DecidableEq

/-- Predicate `startsWith pat l`: `pat` is an initial segment of `l`. -/
def startsWith : List Char → List Char → Bool
  | [], _ => true
  | _ :: _, [] => false
  | a :: as, b :: bs => (a = b) && startsWith as bs

/-- Predicate `occursIn pat l`: `pat` appears contiguously somewhere in
`l`. -/
def occursIn (pat : List Char) : List Char → Bool
  | [] => pat.isEmpty
  | c :: rest => startsWith pat (c :: rest) || occursIn pat rest

/-- Substring containment of `pat` in `s`, as Python's `pat in s`
(contiguous, case-sensitive). -/
def strContainedIn (pat s : String) : Bool :=
  occursIn pat.toList s.toList

/-- Python's `pat in v` on a loosely-typed cell `v`: the substring test when
`v` is a string, a `TypeError` otherwise. -/
def pyIn (pat : String) (v : Cell) : Except PyErr Bool :=
  match v with
  | Cell.str s => Except.ok (strContainedIn pat s)
  | Cell.nonString => Except.error PyErr.typeError

/-- One transformed output row: the 6-element list the source appends to
`transformed_data` (email, '', '', simplified_role, fifth_column,
sixth_column). -/
structure OutputRecord where
  email : Cell
  f2 : Cell
  f3 : Cell
  simplifiedRole : Cell
  adminScope : Cell
  canPublish : Cell
deriving DecidableEq

/-- The loop body of `convert_excel_to_csv` (lines 211-245): per-row
transformation.  The `if/elif` chain is transcribed with each `in` test able
to raise; reaching a later test requires the earlier ones to have returned
`False`. -/
def transformRow (row : InputRow) : Except PyErr OutputRecord :=
  let email := rowGet row.email
  let site_role := rowGet row.siteRole
  match pyIn "SiteAdministratorCreator" site_role with
  | Except.error e => Except.error e
  | Except.ok true =>
      Except.ok ⟨email, Cell.str "", Cell.str "",
        Cell.str "Creator", Cell.str "site", Cell.str "True"⟩
  | Except.ok false =>
    match pyIn "ExplorerCanPublish" site_role with
    | Except.error e => Except.error e
    | Except.ok true =>
        Except.ok ⟨email, Cell.str "", Cell.str "",
          Cell.str "Explorer", Cell.str "None", Cell.str "True"⟩
    | Except.ok false =>
      match pyIn "Viewer" site_role with
      | Except.error e => Except.error e
      | Except.ok true =>
          Except.ok ⟨email, Cell.str "", Cell.str "",
            Cell.str "Viewer", Cell.str "None", Cell.str "False"⟩
      | Except.ok false =>
        match pyIn "SiteAdministratorExplorer" site_role with
        | Except.error e => Except.error e
        | Except.ok true =>
            Except.ok ⟨email, Cell.str "", Cell.str "",
              Cell.str "Explorer", Cell.str "site", Cell.str "True"⟩
        | Except.ok false =>
            Except.ok ⟨email, Cell.str "", Cell.str "",
              site_role, Cell.str "None", Cell.str "False"⟩

/-- The row loop (line 210): rows are processed in order; an uncaught
exception aborts the loop and propagates to the caller's handler. -/
def transformRows : List InputRow → Except PyErr (List OutputRecord)
  | [] => Except.ok []
  | row :: rest =>
    match transformRow row with
    | Except.error e => Except.error e
    | Except.ok r =>
      match transformRows rest with
      | Except.error e => Except.error e
      | Except.ok rs => Except.ok (r :: rs)

/-- Rendering by `to_csv`: a string cell is written as itself, NaN/non-string
as the empty field. -/
def renderCell : Cell → String
  | Cell.str s => s
  | Cell.nonString => ""

/-- Double every quote character, as CSV quoting does inside a quoted
field. -/
def escapeChars : List Char → List Char
  | [] => []
  | c :: rest => (if c = '\"' then ['\"', '\"'] else [c]) ++ escapeChars rest

/-- The string form of `escapeChars`. -/
def escapeQuotes (s : String) : String :=
  String.mk (escapeChars s.data)

/-- Minimal quoting rule of `to_csv` (QUOTE_MINIMAL): a field is quoted iff
it contains the delimiter, the quote character, or a line break. -/
def needsQuoting (s : String) : Bool :=
  s.toList.any fun c => c = ',' || c = '\"' || c = '\n' || c = '\r'

/-- Render one field under minimal CSV quoting. -/
def csvField (s : String) : String :=
  if needsQuoting s then "\"" ++ escapeQuotes s ++ "\"" else s

/-- The six cells of an output record in serialization order. -/
def recordFields (r : OutputRecord) : List Cell :=
  [r.email, r.f2, r.f3, r.simplifiedRole, r.adminScope, r.canPublish]

/-- Join already-rendered fields with the comma delimiter. -/
def joinFields : List String → String
  | [] => ""
  | [f] => f
  | f :: fs => f ++ "," ++ joinFields fs

/-- One CSV line: rendered, quoted fields joined by commas, terminated by a
newline. -/
def csvLine (r : OutputRecord) : String :=
  joinFields ((recordFields r).map fun c => csvField (renderCell c)) ++ "\n"

/-- Model of `pd.DataFrame(records).to_csv(index=False, header=False)`: no
header line, no index column, one terminated line per record; the empty frame
serializes to the empty string. -/
def toCsv : List OutputRecord → String
  | [] => ""
  | r :: rs => csvLine r ++ toCsv rs

/-- The pure core of `convert_excel_to_csv`: transform every row, then
serialize; any uncaught per-row exception reaches the surrounding handler
and the conversion fails with no output. -/
def convert_excel_to_csv (rows : List InputRow) : Except PyErr String :=
  match transformRows rows with
  | Except.error e => Except.error e
  | Except.ok recs => Except.ok (toCsv recs)

/-- The loop body of the styled "v2" converter inlined in `main`
(lines 950-976): an independent transcription of that second copy of the
transformation. -/
def transformRowV2 (row : InputRow) : Except PyErr OutputRecord :=
  let email := rowGet row.email
  let site_role := rowGet row.siteRole
  match pyIn "SiteAdministratorCreator" site_role with
  | Except.error e => Except.error e
  | Except.ok true =>
      Except.ok ⟨email, Cell.str "", Cell.str "",
        Cell.str "Creator", Cell.str "site", Cell.str "True"⟩
  | Except.ok false =>
    match pyIn "ExplorerCanPublish" site_role with
    | Except.error e => Except.error e
    | Except.ok true =>
        Except.ok ⟨email, Cell.str "", Cell.str "",
          Cell.str "Explorer", Cell.str "None", Cell.str "True"⟩
    | Except.ok false =>
      match pyIn "Viewer" site_role with
      | Except.error e => Except.error e
      | Except.ok true =>
          Except.ok ⟨email, Cell.str "", Cell.str "",
            Cell.str "Viewer", Cell.str "None", Cell.str "False"⟩
      | Except.ok false =>
        match pyIn "SiteAdministratorExplorer" site_role with
        | Except.error e => Except.error e
        | Except.ok true =>
            Except.ok ⟨email, Cell.str "", Cell.str "",
              Cell.str "Explorer", Cell.str "site", Cell.str "True"⟩
        | Except.ok false =>
            Except.ok ⟨email, Cell.str "", Cell.str "",
              site_role, Cell.str "None", Cell.str "False"⟩

/-- The "v2" row loop (line 950). -/
def transformRowsV2 : List InputRow → Except PyErr (List OutputRecord)
  | [] => Except.ok []
  | row :: rest =>
    match transformRowV2 row with
    | Except.error e => Except.error e
    | Except.ok r =>
      match transformRowsV2 rest with
      | Except.error e => Except.error e
      | Except.ok rs => Except.ok (r :: rs)

/-- The pure core of the "v2" conversion button handler (lines 947-978):
both copies serialize through the same `pd.DataFrame(...).to_csv` call. -/
def convertV2 (rows : List InputRow) : Except PyErr String :=
  match transformRowsV2 rows with
  | Except.error e => Except.error e
  | Except.ok recs => Except.ok (toCsv recs)

/-- The ordered mapping table of spec section 4.1, written from the spec's
words: (substring pattern, (simplified_role, admin_scope, can_publish)). -/
def specRoleTable : List (String × (String × String × String)) :=
  [("SiteAdministratorCreator", ("Creator", "site", "True")),
   ("ExplorerCanPublish", ("Explorer", "None", "True")),
   ("Viewer", ("Viewer", "None", "False")),
   ("SiteAdministratorExplorer", ("Explorer", "site", "True"))]

/-- First-match-wins lookup in the spec's table; no match falls through to
the pass-through row (`site_role` verbatim, "None", "False"). -/
def specLookup (s : String) : String × String × String :=
  match specRoleTable.find? (fun p => strContainedIn p.1 s) with
  | some p => p.2
  | none => (s, "None", "False")

/-- The five-row table of spec section 4.1 as indexed predicates: rows 0-3
are the substring conditions in their fixed order, row 4 the catch-all
pass-through; there is no row beyond index 4. -/
def tableRowMatches (s : String) : Nat → Bool
  | 0 => strContainedIn "SiteAdministratorCreator" s
  | 1 => strContainedIn "ExplorerCanPublish" s
  | 2 => strContainedIn "Viewer" s
  | 3 => strContainedIn "SiteAdministratorExplorer" s
  | 4 => true
  | _ => false

/-- Row `i` of the table applies to `s` under first-match-wins: `i` is a
row of the table, row `i` matches, and no earlier row matches. -/
def tableApplies (s : String) (i : Nat) : Prop :=
  i < 5 ∧ tableRowMatches s i = true ∧ ∀ j, j < i → tableRowMatches s j = false

instance (s : String) (i : Nat) : Decidable (tableApplies s i) := by
  unfold tableApplies
  infer_instance

/-- Character-count helper used to state "one line per row": the number of
occurrences of `c` in `s`. -/
def countChar (c : Char) (s : String) : Nat :=
  s.data.count c

/-! ## Helper lemmas -/

theorem rowGet_cases (v : Option Cell) :
    rowGet v = Cell.nonString ∨ ∃ s, rowGet v = Cell.str s := by
  cases v with
  | none => exact Or.inr ⟨"", rfl⟩
  | some c =>
    cases c with
    | str s => exact Or.inr ⟨s, rfl⟩
    | nonString => exact Or.inl rfl

theorem transformRow_nonString (row : InputRow)
    (h : rowGet row.siteRole = Cell.nonString) :
    transformRow row = Except.error PyErr.typeError := by
  simp only [transformRow, h, pyIn]

theorem transformRow_str (row : InputRow) (s : String)
    (h : rowGet row.siteRole = Cell.str s) :
    transformRow row = Except.ok
      ⟨rowGet row.email, Cell.str "", Cell.str "",
       Cell.str (specLookup s).1, Cell.str (specLookup s).2.1,
       Cell.str (specLookup s).2.2⟩ := by
  simp only [transformRow, h, pyIn]
  cases h1 : strContainedIn "SiteAdministratorCreator" s <;>
    cases h2 : strContainedIn "ExplorerCanPublish" s <;>
      cases h3 : strContainedIn "Viewer" s <;>
        cases h4 : strContainedIn "SiteAdministratorExplorer" s <;>
          simp [specLookup, specRoleTable, List.find?, h1, h2, h3, h4]

theorem transformRows_length (rows : List InputRow) (recs : List OutputRecord)
    (h : transformRows rows = Except.ok recs) : recs.length = rows.length := by
  induction rows generalizing recs with
  | nil =>
    simp only [transformRows, Except.ok.injEq] at h
    simp [← h]
  | cons row rest ih =>
    simp only [transformRows] at h
    cases htr : transformRow row with
    | error e => rw [htr] at h; exact absurd h (by simp)
    | ok r =>
      rw [htr] at h
      cases hrest : transformRows rest with
      | error e => rw [hrest] at h; exact absurd h (by simp)
      | ok rs =>
        rw [hrest] at h
        simp only [Except.ok.injEq] at h
        subst h
        simp [ih rs hrest]

theorem transformRows_ok_of_str (rows : List InputRow)
    (h : ∀ row ∈ rows, rowGet row.siteRole ≠ Cell.nonString) :
    ∃ recs, transformRows rows = Except.ok recs := by
  induction rows with
  | nil => exact ⟨[], rfl⟩
  | cons row rest ih =>
    rcases rowGet_cases row.siteRole with hn | ⟨s, hs⟩
    · exact absurd hn (h row (by simp))
    · rcases ih (fun r hr => h r (by simp [hr])) with ⟨recs, hrecs⟩
      exact ⟨⟨rowGet row.email, Cell.str "", Cell.str "", Cell.str (specLookup s).1,
        Cell.str (specLookup s).2.1, Cell.str (specLookup s).2.2⟩ :: recs,
        by simp only [transformRows, transformRow_str row s hs, hrecs]⟩

theorem transformRows_error_of_nonString (rows : List InputRow)
    (h : ∃ row ∈ rows, rowGet row.siteRole = Cell.nonString) :
    transformRows rows = Except.error PyErr.typeError := by
  induction rows with
  | nil => rcases h with ⟨r, hr, _⟩; simp at hr
  | cons row rest ih =>
    rcases h with ⟨r, hr, hn⟩
    rcases List.mem_cons.mp hr with hhead | hmem
    · subst hhead
      simp only [transformRows, transformRow_nonString r hn]
    · rcases rowGet_cases row.siteRole with h0 | ⟨s, hs⟩
      · simp only [transformRows, transformRow_nonString row h0]
      · have hrest := ih ⟨r, hmem, hn⟩
        simp only [transformRows, transformRow_str row s hs, hrest]

theorem specLookup_mem (s : String) :
    specLookup s = ("Creator", "site", "True") ∨
      specLookup s = ("Explorer", "None", "True") ∨
        specLookup s = ("Viewer", "None", "False") ∨
          specLookup s = ("Explorer", "site", "True") ∨
            specLookup s = (s, "None", "False") := by
  unfold specLookup specRoleTable
  cases h1 : strContainedIn "SiteAdministratorCreator" s <;>
    cases h2 : strContainedIn "ExplorerCanPublish" s <;>
      cases h3 : strContainedIn "Viewer" s <;>
        cases h4 : strContainedIn "SiteAdministratorExplorer" s <;>
          simp [List.find?, h1, h2, h3, h4]

theorem transformRow_ok_fields (row : InputRow) (r : OutputRecord)
    (h : transformRow row = Except.ok r) :
    r.email = rowGet row.email ∧ r.f2 = Cell.str "" ∧ r.f3 = Cell.str "" ∧
      (r.adminScope = Cell.str "site" → r.canPublish = Cell.str "True") := by
  rcases rowGet_cases row.siteRole with hn | ⟨s, hs⟩
  · rw [transformRow_nonString row hn] at h
    exact absurd h (by simp)
  · rw [transformRow_str row s hs] at h
    simp only [Except.ok.injEq] at h
    subst h
    refine ⟨rfl, rfl, rfl, ?_⟩
    rcases specLookup_mem s with hm | hm | hm | hm | hm <;> rw [hm] <;> intro hsc
    · rfl
    · injection hsc with hs2; exact absurd hs2 (by decide)
    · injection hsc with hs2; exact absurd hs2 (by decide)
    · rfl
    · injection hsc with hs2; exact absurd hs2 (by decide : ¬("None" = "site"))

theorem transformRows_mem (rows : List InputRow) (recs : List OutputRecord)
    (h : transformRows rows = Except.ok recs) (r : OutputRecord) (hr : r ∈ recs) :
    ∃ row ∈ rows, transformRow row = Except.ok r := by
  induction rows generalizing recs with
  | nil =>
    simp only [transformRows, Except.ok.injEq] at h
    rw [← h] at hr
    simp at hr
  | cons row rest ih =>
    simp only [transformRows] at h
    cases htr : transformRow row with
    | error e => rw [htr] at h; exact absurd h (by simp)
    | ok r0 =>
      rw [htr] at h
      cases hrest : transformRows rest with
      | error e => rw [hrest] at h; exact absurd h (by simp)
      | ok rs =>
        rw [hrest] at h
        simp only [Except.ok.injEq] at h
        subst h
        rcases List.mem_cons.mp hr with hhead | hmem
        · exact ⟨row, by simp, by rw [htr, hhead]⟩
        · rcases ih rs hrest hmem with ⟨row1, hrow1, hok⟩
          exact ⟨row1, by simp [hrow1], hok⟩

theorem countChar_append (c : Char) (a b : String) :
    countChar c (a ++ b) = countChar c a + countChar c b := by
  simp [countChar, String.data_append, List.count_append]

theorem countChar_escapeQuotes (c : Char) (hc : ¬c = '\"') (s : String) :
    countChar c (escapeQuotes s) = countChar c s := by
  show (escapeChars s.data).count c = s.data.count c
  induction s.data with
  | nil => rfl
  | cons a t ih =>
    by_cases ha : a = '\"'
    · subst ha
      simp only [escapeChars, if_pos rfl, List.count_append, List.count_cons, ih]
      simp [hc, Ne.symm hc]
    · simp only [escapeChars, if_neg ha, List.count_append, List.count_cons, ih]
      simp only [List.count_nil]
      omega

theorem countChar_csvField (c : Char) (hc : ¬c = '\"') (s : String)
    (h : countChar c s = 0) : countChar c (csvField s) = 0 := by
  unfold csvField
  split
  · rw [countChar_append, countChar_append, countChar_escapeQuotes c hc s, h]
    have hq : countChar c "\"" = 0 := by
      show List.count c ['\"'] = 0
      simp [List.count_cons, hc, Ne.symm hc]
    rw [hq]
  · exact h

theorem countChar_joinFields (c : Char) (hc : ¬c = ',') (l : List String)
    (h : ∀ f ∈ l, countChar c f = 0) : countChar c (joinFields l) = 0 := by
  induction l with
  | nil => rfl
  | cons f fs ih =>
    cases fs with
    | nil => exact h f (by simp)
    | cons g gs =>
      have h1 := h f (by simp)
      have hcomma : countChar c "," = 0 := by
        show List.count c [','] = 0
        simp [List.count_cons, hc, Ne.symm hc]
      have hrest := ih fun x hx => h x (by simp at hx ⊢; tauto)
      show countChar c (f ++ "," ++ joinFields (g :: gs)) = 0
      rw [countChar_append, countChar_append, h1, hcomma, hrest]

theorem countChar_newline_csvLine (r : OutputRecord)
    (h : ∀ ce ∈ recordFields r, countChar '\n' (renderCell ce) = 0) :
    countChar '\n' (csvLine r) = 1 := by
  unfold csvLine
  rw [countChar_append]
  have hjoin : countChar '\n'
      (joinFields ((recordFields r).map fun ce => csvField (renderCell ce))) = 0 := by
    apply countChar_joinFields _ (by decide)
    intro f hf
    rcases List.mem_map.mp hf with ⟨ce, hce, hfe⟩
    rw [← hfe]
    exact countChar_csvField _ (by decide) _ (h ce hce)
  rw [hjoin]
  rfl

theorem countChar_newline_toCsv (recs : List OutputRecord)
    (h : ∀ r ∈ recs, ∀ ce ∈ recordFields r, countChar '\n' (renderCell ce) = 0) :
    countChar '\n' (toCsv recs) = recs.length := by
  induction recs with
  | nil => rfl
  | cons r rs ih =>
    show countChar '\n' (csvLine r ++ toCsv rs) = rs.length + 1
    rw [countChar_append, countChar_newline_csvLine r (h r (by simp)),
      ih fun x hx => h x (by simp [hx])]
    omega

theorem transformRow_fields_no_newline (row : InputRow) (r : OutputRecord)
    (h : transformRow row = Except.ok r)
    (he : countChar '\n' (renderCell (rowGet row.email)) = 0)
    (hs : countChar '\n' (renderCell (rowGet row.siteRole)) = 0) :
    ∀ ce ∈ recordFields r, countChar '\n' (renderCell ce) = 0 := by
  rcases rowGet_cases row.siteRole with hn | ⟨s, hsr⟩
  · rw [transformRow_nonString row hn] at h
    exact absurd h (by simp)
  · rw [transformRow_str row s hsr] at h
    simp only [Except.ok.injEq] at h
    subst h
    rw [hsr] at hs
    intro ce hce
    rcases specLookup_mem s with hm | hm | hm | hm | hm <;>
      simp only [recordFields, hm, List.mem_cons, List.not_mem_nil, or_false] at hce <;>
        rcases hce with h0 | h0 | h0 | h0 | h0 | h0 <;> subst h0 <;>
          first
            | exact he
            | exact hs
            | decide

theorem tableApplies_unique (s : String) (i j : Nat)
    (hi : tableApplies s i) (hj : tableApplies s j) : j = i := by
  rcases Nat.lt_trichotomy j i with hlt | heq | hgt
  · exact absurd hj.2.1 (by rw [hi.2.2 j hlt]; simp)
  · exact heq
  · exact absurd hi.2.1 (by rw [hj.2.2 i hgt]; simp)

theorem tableApplies_exists (s : String) : ∃ i, tableApplies s i := by
  by_cases h0 : tableRowMatches s 0 = true
  · exact ⟨0, by omega, h0, fun j hj => absurd hj (by omega)⟩
  · by_cases h1 : tableRowMatches s 1 = true
    · refine ⟨1, by omega, h1, fun j hj => ?_⟩
      interval_cases j
      · simpa using h0
    · by_cases h2 : tableRowMatches s 2 = true
      · refine ⟨2, by omega, h2, fun j hj => ?_⟩
        interval_cases j
        · simpa using h0
        · simpa using h1
      · by_cases h3 : tableRowMatches s 3 = true
        · refine ⟨3, by omega, h3, fun j hj => ?_⟩
          interval_cases j
          · simpa using h0
          · simpa using h1
          · simpa using h2
        · refine ⟨4, by omega, rfl, fun j hj => ?_⟩
          interval_cases j
          · simpa using h0
          · simpa using h1
          · simpa using h2
          · simpa using h3

theorem transformRows_get (rows : List InputRow) (recs : List OutputRecord)
    (h : transformRows rows = Except.ok recs) (i : Nat)
    (h1 : i < rows.length) (h2 : i < recs.length) :
    transformRow (rows.get ⟨i, h1⟩) = Except.ok (recs.get ⟨i, h2⟩) := by
  induction rows generalizing recs i with
  | nil => simp at h1
  | cons row rest ih =>
    simp only [transformRows] at h
    cases htr : transformRow row with
    | error e => rw [htr] at h; exact absurd h (by simp)
    | ok r0 =>
      rw [htr] at h
      cases hrest : transformRows rest with
      | error e => rw [hrest] at h; exact absurd h (by simp)
      | ok rs =>
        rw [hrest] at h
        simp only [Except.ok.injEq] at h
        subst h
        cases i with
        | zero => simpa using htr
        | succ n =>
          have h1n : n < rest.length := by simpa using h1
          have h2n : n < rs.length := by simpa using h2
          simpa using ih rs hrest n h1n h2n

/-! ## Claim theorems -/

/-- Claim C1: for every input row whose `site_role` value is a string, the
converter assigns (simplified_role, admin_scope, can_publish) by
first-match-wins, case-sensitive substring containment in the spec's fixed
table order, falling through to verbatim pass-through with ("None",
"False"). -/
theorem c1_role_mapping_follows_spec_table (row : InputRow) (s : String)
    (h : rowGet row.siteRole = Cell.str s) :
    transformRow row = Except.ok
      ⟨rowGet row.email, Cell.str "", Cell.str "",
       Cell.str (specLookup s).1, Cell.str (specLookup s).2.1,
       Cell.str (specLookup s).2.2⟩ :=
  transformRow_str row s h

theorem c1_witness :
    rowGet (InputRow.mk (some (Cell.str "u@x.com"))
        (some (Cell.str "ServerViewer"))).siteRole = Cell.str "ServerViewer" ∧
      transformRow ⟨some (Cell.str "u@x.com"), some (Cell.str "ServerViewer")⟩ =
        Except.ok ⟨Cell.str "u@x.com", Cell.str "", Cell.str "",
          Cell.str (specLookup "ServerViewer").1,
          Cell.str (specLookup "ServerViewer").2.1,
          Cell.str (specLookup "ServerViewer").2.2⟩ :=
  ⟨rfl, c1_role_mapping_follows_spec_table
    ⟨some (Cell.str "u@x.com"), some (Cell.str "ServerViewer")⟩ "ServerViewer" rfl⟩

/-- Claim C2: for every input of N rows (N ≥ 0) whose role cells are in the
string data model, the conversion succeeds and produces exactly N output
records: none filtered, deduplicated, added, or dropped. -/
theorem c2_output_count_equals_input_count (rows : List InputRow)
    (h : ∀ row ∈ rows, rowGet row.siteRole ≠ Cell.nonString) :
    ∃ recs, transformRows rows = Except.ok recs ∧ recs.length = rows.length := by
  rcases transformRows_ok_of_str rows h with ⟨recs, hrecs⟩
  exact ⟨recs, hrecs, transformRows_length rows recs hrecs⟩

theorem c2_witness :
    (∀ row ∈ ([⟨some (Cell.str "a@x.com"), some (Cell.str "Viewer")⟩,
        ⟨none, none⟩] : List InputRow), rowGet row.siteRole ≠ Cell.nonString) ∧
      ∃ recs, transformRows [⟨some (Cell.str "a@x.com"), some (Cell.str "Viewer")⟩,
        ⟨none, none⟩] = Except.ok recs ∧
        recs.length = ([⟨some (Cell.str "a@x.com"), some (Cell.str "Viewer")⟩,
          ⟨none, none⟩] : List InputRow).length :=
  ⟨by decide, c2_output_count_equals_input_count _ (by decide)⟩

/-- Claim C3 counterexample: a row whose `Site Role` value is present but is
not a string does abort the conversion: the first `in` containment test
raises `TypeError`, the surrounding handler reports failure, and no output
records are produced, contradicting "never aborts". -/
theorem c3_counterexample :
    convert_excel_to_csv [⟨some (Cell.str "a@x.com"), some Cell.nonString⟩] =
      Except.error PyErr.typeError := rfl

/-- Claim C3 (amended): a row whose `Site Role` key is absent is coerced to
the empty string by the `row.get` default and takes the pass-through branch
without aborting; but a row whose `site_role` value is present and not a
string raises a `TypeError` that aborts the whole conversion with no
output. -/
theorem c3_amended_missing_recovers_nonstring_aborts :
    (∀ row : InputRow, row.siteRole = none →
      transformRow row = Except.ok ⟨rowGet row.email, Cell.str "", Cell.str "",
        Cell.str "", Cell.str "None", Cell.str "False"⟩) ∧
    (∀ rows : List InputRow,
      (∃ row ∈ rows, rowGet row.siteRole = Cell.nonString) →
      convert_excel_to_csv rows = Except.error PyErr.typeError) := by
  constructor
  · intro row hnone
    have hget : rowGet row.siteRole = Cell.str "" := by rw [hnone]; rfl
    have heval : specLookup "" = ("", "None", "False") := rfl
    rw [transformRow_str row "" hget, heval]
  · intro rows hex
    simp only [convert_excel_to_csv, transformRows_error_of_nonString rows hex]

theorem c3_witness :
    (InputRow.mk (some (Cell.str "m@x.com")) none).siteRole = none ∧
      transformRow ⟨some (Cell.str "m@x.com"), none⟩ =
        Except.ok ⟨rowGet (InputRow.mk (some (Cell.str "m@x.com")) none).email,
          Cell.str "", Cell.str "", Cell.str "", Cell.str "None", Cell.str "False"⟩ ∧
      convert_excel_to_csv [⟨some (Cell.str "n@x.com"), some Cell.nonString⟩] =
        Except.error PyErr.typeError :=
  ⟨rfl,
   c3_amended_missing_recovers_nonstring_aborts.1
     ⟨some (Cell.str "m@x.com"), none⟩ rfl,
   c3_amended_missing_recovers_nonstring_aborts.2
     [⟨some (Cell.str "n@x.com"), some Cell.nonString⟩]
     ⟨⟨some (Cell.str "n@x.com"), some Cell.nonString⟩, by simp, rfl⟩⟩

/-- Claim C4: for every successfully converted input, output record i's
first field is input row i's email value (the `row.get` default `''` when
the column is absent), and fields 2 and 3 are the empty string. -/
theorem c4_email_identity_blank_fields (rows : List InputRow)
    (recs : List OutputRecord) (h : transformRows rows = Except.ok recs)
    (i : Nat) (h1 : i < rows.length) (h2 : i < recs.length) :
    (recs.get ⟨i, h2⟩).email = rowGet (rows.get ⟨i, h1⟩).email ∧
      (recs.get ⟨i, h2⟩).f2 = Cell.str "" ∧
      (recs.get ⟨i, h2⟩).f3 = Cell.str "" := by
  have hrow := transformRows_get rows recs h i h1 h2
  have hf := transformRow_ok_fields _ _ hrow
  exact ⟨hf.1, hf.2.1, hf.2.2.1⟩

theorem c4_witness :
    transformRows [⟨some (Cell.str "a@x.com"), some (Cell.str "Viewer")⟩] =
      Except.ok [⟨Cell.str "a@x.com", Cell.str "", Cell.str "",
        Cell.str "Viewer", Cell.str "None", Cell.str "False"⟩] ∧
    (([(⟨Cell.str "a@x.com", Cell.str "", Cell.str "", Cell.str "Viewer",
        Cell.str "None", Cell.str "False"⟩ : OutputRecord)]).get
          ⟨0, by decide⟩).email =
        rowGet (([(⟨some (Cell.str "a@x.com"), some (Cell.str "Viewer")⟩ :
          InputRow)]).get ⟨0, by decide⟩).email ∧
      (([(⟨Cell.str "a@x.com", Cell.str "", Cell.str "", Cell.str "Viewer",
        Cell.str "None", Cell.str "False"⟩ : OutputRecord)]).get
          ⟨0, by decide⟩).f2 = Cell.str "" ∧
      (([(⟨Cell.str "a@x.com", Cell.str "", Cell.str "", Cell.str "Viewer",
        Cell.str "None", Cell.str "False"⟩ : OutputRecord)]).get
          ⟨0, by decide⟩).f3 = Cell.str "" :=
  ⟨rfl, c4_email_identity_blank_fields
    [⟨some (Cell.str "a@x.com"), some (Cell.str "Viewer")⟩]
    [⟨Cell.str "a@x.com", Cell.str "", Cell.str "", Cell.str "Viewer",
      Cell.str "None", Cell.str "False"⟩] rfl 0 (by decide) (by decide)⟩

/-- Claim C5: the spec's five single-row scenarios produce exactly the
stated CSV lines (each line is terminated by the serializer's newline). -/
theorem c5_concrete_scenarios :
    convert_excel_to_csv
        [⟨some (Cell.str "a@x.com"), some (Cell.str "SiteAdministratorCreator")⟩] =
      Except.ok "a@x.com,,,Creator,site,True\n" ∧
    convert_excel_to_csv
        [⟨some (Cell.str "b@x.com"), some (Cell.str "ExplorerCanPublish")⟩] =
      Except.ok "b@x.com,,,Explorer,None,True\n" ∧
    convert_excel_to_csv
        [⟨some (Cell.str "c@x.com"), some (Cell.str "Viewer")⟩] =
      Except.ok "c@x.com,,,Viewer,None,False\n" ∧
    convert_excel_to_csv
        [⟨some (Cell.str "d@x.com"), some (Cell.str "SiteAdministratorExplorer")⟩] =
      Except.ok "d@x.com,,,Explorer,site,True\n" ∧
    convert_excel_to_csv
        [⟨some (Cell.str "e@x.com"), some (Cell.str "Unlicensed")⟩] =
      Except.ok "e@x.com,,,Unlicensed,None,False\n" :=
  ⟨rfl, rfl, rfl, rfl, rfl⟩

/-- Claim C6: a row whose `site_role` is absent or the empty string takes
the pass-through branch and produces (email, "", "", "", "None", "False"):
the simplified role is the empty string. -/
theorem c6_absent_or_empty_site_role_pass_through (row : InputRow)
    (h : row.siteRole = none ∨ row.siteRole = some (Cell.str "")) :
    transformRow row = Except.ok ⟨rowGet row.email, Cell.str "", Cell.str "",
      Cell.str "", Cell.str "None", Cell.str "False"⟩ := by
  have hget : rowGet row.siteRole = Cell.str "" := by
    rcases h with h | h <;> rw [h] <;> rfl
  have heval : specLookup "" = ("", "None", "False") := rfl
  rw [transformRow_str row "" hget, heval]

theorem c6_witness :
    ((InputRow.mk (some (Cell.str "p@x.com")) none).siteRole = none ∨
      (InputRow.mk (some (Cell.str "p@x.com")) none).siteRole =
        some (Cell.str "")) ∧
    transformRow ⟨some (Cell.str "p@x.com"), none⟩ =
      Except.ok ⟨rowGet (InputRow.mk (some (Cell.str "p@x.com")) none).email,
        Cell.str "", Cell.str "", Cell.str "", Cell.str "None",
        Cell.str "False"⟩ :=
  ⟨Or.inl rfl, c6_absent_or_empty_site_role_pass_through
    ⟨some (Cell.str "p@x.com"), none⟩ (Or.inl rfl)⟩

/-- Claim C7: serialization is comma-delimited, headerless and index-free:
the empty input yields the empty CSV body; a field containing the delimiter
is quoted in the standard way; and on a successful conversion whose rendered
input cells contain no newline, the output text carries exactly one line
terminator per input row. -/
theorem c7_csv_serialization_shape :
    convert_excel_to_csv [] = Except.ok "" ∧
    (∀ s : String, ',' ∈ s.data →
      csvField s = "\"" ++ escapeQuotes s ++ "\"") ∧
    (∀ rows csv, convert_excel_to_csv rows = Except.ok csv →
      (∀ row ∈ rows, countChar '\n' (renderCell (rowGet row.email)) = 0 ∧
        countChar '\n' (renderCell (rowGet row.siteRole)) = 0) →
      countChar '\n' csv = rows.length) := by
  refine ⟨rfl, ?_, ?_⟩
  · intro s hmem
    have hq : needsQuoting s = true := by
      unfold needsQuoting
      rw [List.any_eq_true]
      exact ⟨',', hmem, by decide⟩
    simp [csvField, hq]
  · intro rows csv hconv hnl
    unfold convert_excel_to_csv at hconv
    cases htr : transformRows rows with
    | error e => rw [htr] at hconv; exact absurd hconv (by simp)
    | ok recs =>
      rw [htr] at hconv
      simp only [Except.ok.injEq] at hconv
      subst hconv
      have hfields : ∀ r ∈ recs, ∀ ce ∈ recordFields r,
          countChar '\n' (renderCell ce) = 0 := by
        intro r hr
        rcases transformRows_mem rows recs htr r hr with ⟨row, hrow, hok⟩
        exact transformRow_fields_no_newline row r hok
          (hnl row hrow).1 (hnl row hrow).2
      rw [countChar_newline_toCsv recs hfields]
      exact transformRows_length rows recs htr

theorem c7_witness :
    (',' ∈ ("a,b" : String).data ∧
      csvField "a,b" = "\"" ++ escapeQuotes "a,b" ++ "\"") ∧
    (convert_excel_to_csv [⟨some (Cell.str "a@x.com"), some (Cell.str "Viewer")⟩] =
        Except.ok "a@x.com,,,Viewer,None,False\n" ∧
      countChar '\n' "a@x.com,,,Viewer,None,False\n" =
        ([(⟨some (Cell.str "a@x.com"), some (Cell.str "Viewer")⟩ :
          InputRow)]).length) :=
  ⟨⟨by decide, c7_csv_serialization_shape.2.1 "a,b" (by decide)⟩,
   ⟨rfl, c7_csv_serialization_shape.2.2
     [⟨some (Cell.str "a@x.com"), some (Cell.str "Viewer")⟩]
     "a@x.com,,,Viewer,None,False\n" rfl (by decide)⟩⟩

/-- Claim C8: the conversion is deterministic: for any `site_role` string
exactly one row of the spec's five-row table applies under first-match-wins,
and running the conversion twice on identical input sequences yields
byte-identical CSV output. -/
theorem c8_deterministic_first_match (s : String) (rows1 rows2 : List InputRow)
    (h : rows1 = rows2) :
    (∃! i, tableApplies s i) ∧
      convert_excel_to_csv rows1 = convert_excel_to_csv rows2 := by
  constructor
  · rcases tableApplies_exists s with ⟨i, hi⟩
    exact ⟨i, hi, fun j hj => tableApplies_unique s i j hi hj⟩
  · rw [h]

theorem c8_witness :
    ([⟨some (Cell.str "a@x.com"), some (Cell.str "Viewer")⟩] : List InputRow) =
      [⟨some (Cell.str "a@x.com"), some (Cell.str "Viewer")⟩] ∧
    ((∃! i, tableApplies "ServerViewer" i) ∧
      convert_excel_to_csv
          [⟨some (Cell.str "a@x.com"), some (Cell.str "Viewer")⟩] =
        convert_excel_to_csv
          [⟨some (Cell.str "a@x.com"), some (Cell.str "Viewer")⟩]) :=
  ⟨rfl, c8_deterministic_first_match "ServerViewer" _ _ rfl⟩

/-- Claim C9: the minimal converter and the styled "v2" converter inlined in
`main` implement the same transformation: on every input sequence they
produce equal per-row records and identical serialized CSV text. -/
theorem c9_v1_v2_equivalent (rows : List InputRow) :
    transformRowsV2 rows = transformRows rows ∧
      convertV2 rows = convert_excel_to_csv rows := by
  have hrows : transformRowsV2 rows = transformRows rows := by
    induction rows with
    | nil => rfl
    | cons row rest ih =>
      simp only [transformRowsV2, transformRows]
      rw [show transformRowV2 row = transformRow row from rfl, ih]
  exact ⟨hrows, by simp only [convertV2, convert_excel_to_csv, hrows]⟩

/-- Claim C10: every record of a successful conversion satisfies the
invariant that admin_scope "site" forces can_publish "True"; no record pairs
"site" with "False". -/
theorem c10_site_scope_implies_can_publish (rows : List InputRow)
    (recs : List OutputRecord) (h : transformRows rows = Except.ok recs)
    (r : OutputRecord) (hr : r ∈ recs)
    (hsite : r.adminScope = Cell.str "site") :
    r.canPublish = Cell.str "True" := by
  rcases transformRows_mem rows recs h r hr with ⟨row, _, hok⟩
  exact (transformRow_ok_fields row r hok).2.2.2 hsite

theorem c10_witness :
    transformRows [⟨some (Cell.str "a@x.com"),
        some (Cell.str "SiteAdministratorCreator")⟩] =
      Except.ok [⟨Cell.str "a@x.com", Cell.str "", Cell.str "",
        Cell.str "Creator", Cell.str "site", Cell.str "True"⟩] ∧
    (⟨Cell.str "a@x.com", Cell.str "", Cell.str "", Cell.str "Creator",
        Cell.str "site", Cell.str "True"⟩ : OutputRecord) ∈
      [(⟨Cell.str "a@x.com", Cell.str "", Cell.str "", Cell.str "Creator",
        Cell.str "site", Cell.str "True"⟩ : OutputRecord)] ∧
    (⟨Cell.str "a@x.com", Cell.str "", Cell.str "", Cell.str "Creator",
        Cell.str "site", Cell.str "True"⟩ : OutputRecord).adminScope =
      Cell.str "site" ∧
    (⟨Cell.str "a@x.com", Cell.str "", Cell.str "", Cell.str "Creator",
        Cell.str "site", Cell.str "True"⟩ : OutputRecord).canPublish =
      Cell.str "True" :=
  ⟨rfl, by simp,  rfl,
   c10_site_scope_implies_can_publish
     [⟨some (Cell.str "a@x.com"), some (Cell.str "SiteAdministratorCreator")⟩]
     [⟨Cell.str "a@x.com", Cell.str "", Cell.str "", Cell.str "Creator",
       Cell.str "site", Cell.str "True"⟩] rfl
     ⟨Cell.str "a@x.com", Cell.str "", Cell.str "", Cell.str "Creator",
       Cell.str "site", Cell.str "True"⟩ (by simp) rfl⟩
